import Mathlib

/-!
Verification development for the qq command-line tool (src/qq.py).
The Python string operations used by the tool are embedded as executable
functions over `List Char`, and the control flow of the explain and
generate modes is embedded as pure state-passing functions.
-/

/-- Characters treated as whitespace by Python str.strip for the ASCII
inputs relevant here. -/
def isPySpace (c : Char) : Bool :=
  c = ' ' || c = '\t' || c = '\n' || c = '\r' || c = Char.ofNat 11 || c = Char.ofNat 12

/-- Python str.strip: remove leading and trailing whitespace. -/
def pyStrip (s : List Char) : List Char :=
  (((s.dropWhile isPySpace).reverse.dropWhile isPySpace)).reverse

/-- Python str.lower on the ASCII inputs relevant here. -/
def pyLower (s : List Char) : List Char :=
  s.map Char.toLower

/-- Index of the first occurrence of pat as a contiguous sublist of s
(none when absent); mirrors the search done by Python str.find. -/
def findSub : List Char → List Char → Option Nat
  | [], pat => if pat.isPrefixOf ([] : List Char) then some 0 else none
  | a :: rest, pat =>
    if pat.isPrefixOf (a :: rest) then some 0
    else (findSub rest pat).map (fun n => n + 1)

/-- Python str.find: first index of pat in s, or -1 when absent. -/
def pyFind (s pat : List Char) : Int :=
  match findSub s pat with
  | none => -1
  | some i => (i : Int)

/-- Normalize a Python slice bound: negative indices count from the end,
then the result is clamped to the range 0 .. length. -/
def pyIdx (len : Nat) (i : Int) : Nat :=
  let j : Int := if i < 0 then i + (len : Int) else i
  if j < 0 then 0 else min j.toNat len

/-- Python slice s[a:b] with int bounds (step 1). -/
def pySlice (s : List Char) (a b : Int) : List Char :=
  (s.take (pyIdx s.length b)).drop (pyIdx s.length a)

/-- Python str.replace with count 1: replace the first occurrence of pat
in s by rep; s unchanged when pat is absent. -/
def pyReplaceFirst (s pat rep : List Char) : List Char :=
  match findSub s pat with
  | none => s
  | some i => s.take i ++ rep ++ s.drop (i + pat.length)

/-- Fuelled worker for pyReplaceAll; each step consumes at least one
character of s when pat is nonempty, so fuel s.length + 1 suffices. -/
def replaceAllAux : Nat → List Char → List Char → List Char → List Char
  | 0, s, _, _ => s
  | fuel + 1, s, pat, rep =>
    match findSub s pat with
    | none => s
    | some i => s.take i ++ rep ++ replaceAllAux fuel (s.drop (i + pat.length)) pat rep

/-- Python str.replace without a count: replace every non-overlapping
occurrence of pat in s, left to right (pat nonempty at all call sites). -/
def pyReplaceAll (s pat rep : List Char) : List Char :=
  replaceAllAux (s.length + 1) s pat rep

/-- Concatenation of a list of character lists. -/
def listJoin : List (List Char) → List Char
  | [] => []
  | x :: xs => x ++ listJoin xs

example : pyStrip "  ab c  ".toList = "ab c".toList := by decide
example : findSub "abcabc".toList "bc".toList = some 1 := by decide
example : pyFind "abc".toList "zz".toList = -1 := by decide
example : pySlice "abcdef".toList 2 (-1) = "cde".toList := by decide
example : pyReplaceFirst "a.a.a".toList "a".toList "X".toList = "X.a.a".toList := by decide
example : pyReplaceAll "a.a.a".toList "a".toList "X".toList = "X.X.X".toList := by decide

/-! ## Startup credential gate (src/qq.py lines 18-25) -/

/-- The required credential environment variables (src/qq.py line 18). -/
def NEEDED_KEYS : List (List Char) :=
  ["OPENAI_API_KEY".toList, "ANTHROPIC_API_KEY".toList]

/-- Python truthiness test of not os.getenv(key): an unset variable
(getenv returns None) and an empty value are both falsy. -/
def envFalsy (env : List Char → Option (List Char)) (k : List Char) : Bool :=
  match env k with
  | none => true
  | some v => v.isEmpty

/-- src/qq.py line 19: the needed keys whose value is absent or empty. -/
def missing_keys (env : List Char → Option (List Char)) : List (List Char) :=
  NEEDED_KEYS.filter (fun k => envFalsy env k)

/-- Outcome of module start: either the process exited with a code and a
diagnostic listing the missing variables, or it proceeded to the rest of
main (llmCalls counts the generation-capability calls that would run). -/
inductive StartupResult where
  | exited (code : Nat) (diagnostic : List (List Char))
  | proceeded (llmCalls : Nat)
deriving DecidableEq

/-- src/qq.py lines 20-25: when missing_keys is nonempty the process
prints the missing names to stderr and exits with status 1 before any
other work, otherwise execution proceeds. -/
def startupGate (env : List Char → Option (List Char)) (llmCalls : Nat) : StartupResult :=
  if missing_keys env = [] then StartupResult.proceeded llmCalls
  else StartupResult.exited 1 (missing_keys env)

/-! ## Conversation data model and streaming (src/qq.py generate/explain) -/

/-- Message role. -/
inductive Role where
  | system
  | user
  | assistant
deriving DecidableEq

/-- One conversation message, as the dicts built in src/qq.py. -/
structure Turn where
  role : Role
  content : List Char
deriving DecidableEq

/-- One step of the streaming loop of src/qq.py lines 256-260: state is
(result accumulated so far, fragments printed so far, in order); a chunk
content that is None or empty is skipped, any other content is printed
and appended to result. -/
def streamStep (st : List Char × List (List Char)) (c : Option (List Char)) :
    List Char × List (List Char) :=
  match c with
  | none => st
  | some t => if t = [] then st else (st.1 ++ t, st.2 ++ [t])

/-- The whole streaming loop over a finite list of chunk contents,
starting from result = "" and nothing printed. -/
def streamLoop (chunks : List (Option (List Char))) : List Char × List (List Char) :=
  chunks.foldl streamStep ([], [])

/-- One AWAIT_MODEL pass of src/qq.py lines 253-263: append the user turn
with the current query, run the stream, append the assistant turn with
the accumulated result. -/
def awaitModel (ms : List Turn) (q : List Char) (chunks : List (Option (List Char))) :
    List Turn :=
  (ms ++ [⟨Role.user, q⟩]) ++ [⟨Role.assistant, (streamLoop chunks).1⟩]

/-- One continuing iteration of the generate loop consumes a query and a
chunk stream; the user choices that continue the loop (edit, retry) only
change the query, never the message list. -/
def genStep (ms : List Turn) (it : List Char × List (Option (List Char))) : List Turn :=
  awaitModel ms it.1 it.2

/-- Messages after running the generate loop of src/qq.py lines 248-263
for the given sequence of continuing iterations, starting from the
single system turn built at lines 248-250. -/
def genLoopMessages (p : List Char)
    (iters : List (List Char × List (Option (List Char)))) : List Turn :=
  iters.foldl genStep [⟨Role.system, p⟩]

/-- Roles of a message list. -/
def rolesOf (ms : List Turn) : List Role :=
  ms.map Turn.role

/-- Checks that a role list is a finite alternation user, assistant,
user, assistant, ... of complete pairs. -/
def altUA : List Role → Bool
  | [] => true
  | Role.user :: Role.assistant :: rest => altUA rest
  | _ => false

/-- Conversation shape: exactly one leading system turn, then strictly
alternating user/assistant pairs. -/
def convShape (ms : List Turn) : Bool :=
  match rolesOf ms with
  | Role.system :: rest => altUA rest
  | _ => false

/-! ## Command extraction and user-choice dispatch (src/qq.py 265-294) -/

/-- src/qq.py lines 265-267: compute the slice bounds with str.find (with
its -1 miss sentinel) and strip the sliced candidate command. -/
def extractCommand (result : List Char) : List Char :=
  let commandStart : Int := pyFind result "<command>".toList + ("<command>".toList.length : Int)
  let commandEnd : Int := pyFind result "</command>".toList
  pyStrip (pySlice result commandStart commandEnd)

/-- The four actions reachable from the choice prompt. -/
inductive UserChoice where
  | exec
  | edit
  | retry
  | quit
deriving DecidableEq

/-- src/qq.py lines 273-294: the choice read at the prompt is stripped
and lowercased, then matched; x runs exec, e edit, r retry, and q or any
other input (the empty string included) falls to the default that breaks
the loop. -/
def dispatch (raw : List Char) : UserChoice :=
  if pyLower (pyStrip raw) = ['x'] then UserChoice.exec
  else if pyLower (pyStrip raw) = ['e'] then UserChoice.edit
  else if pyLower (pyStrip raw) = ['r'] then UserChoice.retry
  else UserChoice.quit

example : extractCommand "pre <command>ls -la</command> post".toList = "ls -la".toList := by decide
example : extractCommand "aaaaaaaaaaaaaaaa".toList = "aaaaaaa".toList := by decide
example : dispatch "  X ".toList = UserChoice.exec := by decide
example : dispatch "".toList = UserChoice.quit := by decide

/-! ## Prompt composition (src/qq.py lines 190-193) -/

/-- The placeholder token :r:key substituted by imbue. -/
def rTok (key : List Char) : List Char :=
  ':' :: 'r' :: ':' :: key

/-- src/qq.py lines 190-193: for each key/value pair of the snapshot, in
mapping order, replace the first occurrence of the token :r:key in the
current prompt string by the value. -/
def imbue (prompt : List Char) (info : List (List Char × List Char)) : List Char :=
  info.foldl (fun p kv => pyReplaceFirst p (rTok kv.1) kv.2) prompt

example : imbue ":r:k and :r:k".toList [("k".toList, "V".toList)] = "V and :r:k".toList := by decide

/-! ## Edit action (src/qq.py lines 269 and 279-290) -/

/-- File-system view of the edit action: whether the temporary file
created for the editor still exists. -/
structure FS where
  tmpExists : Bool
deriving DecidableEq

/-- src/qq.py line 269: result = result.replace with both command tags
removed everywhere, done before the choice prompt of each iteration. -/
def cleanResult (result : List Char) : List Char :=
  pyReplaceAll (pyReplaceAll result "<command>".toList []) "</command>".toList []

/-- The try block of src/qq.py lines 285-288: subprocess.run with
check=True raises when the editor exits non-zero; then the file is read
back (readResult none models the read raising) and the stripped content
becomes the next query. The FS state is untouched by the body. -/
def editBody (editorExitZero : Bool) (readResult : Option (List Char)) (fs : FS) :
    FS × Except Unit (List Char) :=
  if editorExitZero then
    match readResult with
    | some c => (fs, Except.ok (pyStrip c))
    | none => (fs, Except.error ())
  else (fs, Except.error ())

/-- Python try/finally: run the body, then run the finally action on the
resulting state whether the body returned normally or with an exception,
and propagate the body outcome. -/
def pyTryFinally {α : Type} (body : FS → FS × Except Unit α) (fin : FS → FS) (fs : FS) :
    FS × Except Unit α :=
  (fin (body fs).1, (body fs).2)

/-- Result of one run of the edit action. -/
structure EditOutcome where
  written : List Char
  fsAfter : FS
  outcome : Except Unit (List Char)

/-- src/qq.py lines 269 and 279-290: the edit branch writes the cleaned
result (command tags removed) to a fresh temporary file, then runs the
editor and the read-back inside try/finally whose finally clause unlinks
the temporary file. -/
def editAction (assistantText : List Char) (editorExitZero : Bool)
    (readResult : Option (List Char)) : EditOutcome :=
  let written := cleanResult assistantText
  let afterWith : FS := ⟨true⟩
  let run := pyTryFinally (editBody editorExitZero readResult)
    (fun fs => { fs with tmpExists := false }) afterWith
  ⟨written, run.1, run.2⟩

/-! ## Explain mode (src/qq.py lines 196-226 and main 361-368) -/

/-- Observable outcome of one explain-mode run. -/
structure RunOutcome where
  exitCode : Nat
  printed : List Char
  sent : List Turn
deriving DecidableEq

/-- src/qq.py lines 196-226 with main lines 361-368: explain sends
exactly the system turn and the user turn, prints each truthy fragment
as it arrives and a final newline, and the process then exits zero; a
stream failure is caught in main, which exits with status 1. -/
def explainRun (systemPrompt query : List Char)
    (stream : Except (List Char) (List (Option (List Char)))) : RunOutcome :=
  match stream with
  | Except.error _ => ⟨1, [], [⟨Role.system, systemPrompt⟩, ⟨Role.user, query⟩]⟩
  | Except.ok chunks =>
    ⟨0, listJoin (streamLoop chunks).2 ++ ['\n'],
      [⟨Role.system, systemPrompt⟩, ⟨Role.user, query⟩]⟩

/-! ## System-info snapshot for generate mode (src/qq.py lines 229-243) -/

/-- The live environment facts read at src/qq.py lines 231-238. -/
structure EnvFacts where
  osName : List Char
  osVersion : List Char
  shell : List Char
  pythonVersion : List Char
  user : List Char
  home : List Char

/-- Python str() of a bool, as applied by imbue to the color_support
value stored at src/qq.py line 242. -/
def pyStr (b : Bool) : List Char :=
  if b then "True".toList else "False".toList

/-- src/qq.py lines 230-242: the snapshot mapping in dict order; when the
env flag is off every live fact is overwritten with Unknown, and the
color_support entry is then added from the terminal capability. -/
def systemInfo (envFlag : Bool) (facts : EnvFacts) (colorSupport : Bool) :
    List (List Char × List Char) :=
  let base : List (List Char × List Char) :=
    [("os".toList, facts.osName),
     ("os_version".toList, facts.osVersion),
     ("shell".toList, facts.shell),
     ("python_version".toList, facts.pythonVersion),
     ("user".toList, facts.user),
     ("home".toList, facts.home)]
  let base2 := if envFlag then base else base.map (fun kv => (kv.1, "Unknown".toList))
  base2 ++ [("color_support".toList, pyStr colorSupport)]

/-- src/qq.py line 243: the composed generate-mode system prompt. -/
def genSystemPrompt (template : List Char) (envFlag : Bool) (facts : EnvFacts)
    (colorSupport : Bool) : List Char :=
  imbue template (systemInfo envFlag facts colorSupport)

/-- Complete user/assistant alternation of n pairs. -/
def uaPairs : Nat → List Role
  | 0 => []
  | n + 1 => Role.user :: Role.assistant :: uaPairs n

/-! ## Helper lemmas -/

theorem take_len_append {α : Type} (A R : List α) : (A ++ R).take A.length = A := by
  induction A with
  | nil => rfl
  | cons a as ih => simp [ih]

theorem drop_len_append {α : Type} (A R : List α) : (A ++ R).drop A.length = R := by
  induction A with
  | nil => rfl
  | cons a as ih => simp [ih]

theorem drop_len_append2 {α : Type} (A T R : List α) :
    (A ++ (T ++ R)).drop (A.length + T.length) = R := by
  rw [show A ++ (T ++ R) = (A ++ T) ++ R from (List.append_assoc A T R).symm]
  rw [show A.length + T.length = (A ++ T).length from (List.length_append A T).symm]
  exact drop_len_append (A ++ T) R

theorem dropWhile_append_all (w l : List Char) (h : ∀ a ∈ w, isPySpace a = true) :
    (w ++ l).dropWhile isPySpace = l.dropWhile isPySpace := by
  induction w with
  | nil => rfl
  | cons a as ih =>
    have ha : isPySpace a = true := h a (by simp)
    have hrest : ∀ b ∈ as, isPySpace b = true := fun b hb => h b (by simp [hb])
    simp [List.dropWhile_cons, ha, ih hrest]

theorem pyStrip_single (w1 w2 : List Char) (c : Char) (hc : isPySpace c = false)
    (h1 : ∀ a ∈ w1, isPySpace a = true) (h2 : ∀ a ∈ w2, isPySpace a = true) :
    pyStrip (w1 ++ c :: w2) = [c] := by
  unfold pyStrip
  have e1 : List.dropWhile isPySpace (c :: w2) = c :: w2 := by
    simp [List.dropWhile_cons, hc]
  rw [dropWhile_append_all w1 (c :: w2) h1, e1, List.reverse_cons,
    dropWhile_append_all w2.reverse [c] (fun a ha => h2 a (List.mem_reverse.mp ha))]
  simp [List.dropWhile_cons, hc]

theorem listJoin_append (l1 l2 : List (List Char)) :
    listJoin (l1 ++ l2) = listJoin l1 ++ listJoin l2 := by
  induction l1 with
  | nil => rfl
  | cons x xs ih => simp [listJoin, ih, List.append_assoc]

theorem streamLoop_inv :
    ∀ (chunks : List (Option (List Char))) (st : List Char × List (List Char)),
      listJoin st.2 = st.1 →
      listJoin (List.foldl streamStep st chunks).2 = (List.foldl streamStep st chunks).1 := by
  intro chunks
  induction chunks with
  | nil => intro st h; exact h
  | cons c cs ih =>
    intro st h
    have hstep : listJoin (streamStep st c).2 = (streamStep st c).1 := by
      cases c with
      | none => exact h
      | some t =>
        by_cases ht : t = []
        · simpa [streamStep, ht] using h
        · simp [streamStep, ht, listJoin_append, listJoin, h]
    exact ih (streamStep st c) hstep

theorem altUA_uaPairs : ∀ n, altUA (uaPairs n) = true
  | 0 => rfl
  | n + 1 => altUA_uaPairs n

theorem genLoop_roles :
    ∀ (iters : List (List Char × List (Option (List Char)))) (ms : List Turn),
      rolesOf (List.foldl genStep ms iters) = rolesOf ms ++ uaPairs iters.length := by
  intro iters
  induction iters with
  | nil => intro ms; simp [uaPairs, rolesOf]
  | cons it its ih =>
    intro ms
    have h1 : rolesOf (genStep ms it) = rolesOf ms ++ [Role.user, Role.assistant] := by
      simp [genStep, awaitModel, rolesOf]
    calc rolesOf (List.foldl genStep ms (it :: its))
        = rolesOf (List.foldl genStep (genStep ms it) its) := rfl
      _ = rolesOf (genStep ms it) ++ uaPairs its.length := ih (genStep ms it)
      _ = rolesOf ms ++ uaPairs (it :: its).length := by
            rw [h1]; simp [uaPairs, List.append_assoc]

/-! ## Claim theorems -/

/-- Claim C1: extraction of "pre <command>ls -la</command> post" yields
"ls -la" as stated; but for the marker-free 16-character text of all a
characters (first two conjuncts witness that neither marker occurs), the
unguarded str.find sentinel -1 turns the slice into text from index 8 up
to the last character, so the extracted candidate is "aaaaaaa", not the
empty string the claim requires. -/
theorem extract_missing_marker_bug :
    extractCommand "pre <command>ls -la</command> post".toList = "ls -la".toList
    ∧ findSub "aaaaaaaaaaaaaaaa".toList "<command>".toList = none
    ∧ findSub "aaaaaaaaaaaaaaaa".toList "</command>".toList = none
    ∧ extractCommand "aaaaaaaaaaaaaaaa".toList = "aaaaaaa".toList
    ∧ extractCommand "aaaaaaaaaaaaaaaa".toList ≠ [] := by
  decide

/-- Claim C2: at the choice prompt, after whitespace trimming and case
folding, x (any case, any surrounding whitespace) dispatches to exec, e
to edit, r to retry, and the empty string or any token whose trimmed
lowercase form is none of the listed ones dispatches to quit,
terminating the loop without executing a command. -/
theorem dispatch_choice_spec (w1 w2 : List Char) (c : Char) (s : List Char)
    (h1 : ∀ a ∈ w1, isPySpace a = true) (h2 : ∀ a ∈ w2, isPySpace a = true) :
    ((c = 'x' ∨ c = 'X') → dispatch (w1 ++ c :: w2) = UserChoice.exec)
    ∧ ((c = 'e' ∨ c = 'E') → dispatch (w1 ++ c :: w2) = UserChoice.edit)
    ∧ ((c = 'r' ∨ c = 'R') → dispatch (w1 ++ c :: w2) = UserChoice.retry)
    ∧ dispatch [] = UserChoice.quit
    ∧ (pyLower (pyStrip s) ≠ ['x'] → pyLower (pyStrip s) ≠ ['e'] →
        pyLower (pyStrip s) ≠ ['r'] → dispatch s = UserChoice.quit) := by
  refine ⟨?_, ?_, ?_, rfl, ?_⟩
  · intro hc
    rcases hc with rfl | rfl
    · have hs := pyStrip_single w1 w2 'x' (by decide) h1 h2
      simp only [dispatch, hs]; decide
    · have hs := pyStrip_single w1 w2 'X' (by decide) h1 h2
      simp only [dispatch, hs]; decide
  · intro hc
    rcases hc with rfl | rfl
    · have hs := pyStrip_single w1 w2 'e' (by decide) h1 h2
      simp only [dispatch, hs]; decide
    · have hs := pyStrip_single w1 w2 'E' (by decide) h1 h2
      simp only [dispatch, hs]; decide
  · intro hc
    rcases hc with rfl | rfl
    · have hs := pyStrip_single w1 w2 'r' (by decide) h1 h2
      simp only [dispatch, hs]; decide
    · have hs := pyStrip_single w1 w2 'R' (by decide) h1 h2
      simp only [dispatch, hs]; decide
  · intro hx he hr
    simp only [dispatch, if_neg hx, if_neg he, if_neg hr]

/-- Witness for dispatch_choice_spec at concrete inputs. -/
theorem dispatch_choice_witness :
    dispatch ([' '] ++ 'X' :: [' ']) = UserChoice.exec
    ∧ dispatch "zz".toList = UserChoice.quit :=
  ⟨(dispatch_choice_spec [' '] [' '] 'X' "zz".toList (by decide) (by decide)).1 (Or.inr rfl),
   (dispatch_choice_spec [' '] [' '] 'X' "zz".toList (by decide) (by decide)).2.2.2.2
     (by decide) (by decide) (by decide)⟩

/-- Claim C3: on every exit path of the edit action (editor exits zero,
editor exits non-zero, or the read-back fails), the finally clause has
deleted the temporary file before control leaves the action. -/
theorem edit_tmpfile_cleanup (assistantText : List Char) (editorExitZero : Bool)
    (readResult : Option (List Char)) :
    (editAction assistantText editorExitZero readResult).fsAfter.tmpExists = false := rfl

/-- Claim C4 counterexample: the template consisting of the single
placeholder :r:os_version, composed with the snapshot pairs os then
os_version (the order used by the program), is mangled by the earlier
key os whose token is a prefix of the longer placeholder: the result is
L_version, so the placeholder is neither replaced by its own value V nor
left verbatim. -/
theorem imbue_overlap_counterexample :
    imbue ":r:os_version".toList
        [("os".toList, "L".toList), ("os_version".toList, "V".toList)] = "L_version".toList
    ∧ imbue ":r:os_version".toList
        [("os".toList, "L".toList), ("os_version".toList, "V".toList)] ≠ "V".toList
    ∧ imbue ":r:os_version".toList
        [("os".toList, "L".toList), ("os_version".toList, "V".toList)]
        ≠ ":r:os_version".toList := by
  decide

/-- Claim C4 as amended: imbue applies, key by key in mapping order, one
first-occurrence replacement to the current string and never raises; for
a single-key mapping, when the first occurrence of the token in the
template is the exhibited one, that occurrence is replaced by the value
and a second occurrence is left literal, and a template in which the
token does not occur at all is returned verbatim. -/
theorem imbue_first_occurrence (k v A B C T : List Char)
    (h1 : findSub (A ++ rTok k ++ B ++ rTok k ++ C) (rTok k) = some A.length)
    (h2 : findSub T (rTok k) = none) :
    imbue (A ++ rTok k ++ B ++ rTok k ++ C) [(k, v)] = A ++ v ++ B ++ rTok k ++ C
    ∧ imbue T [(k, v)] = T := by
  constructor
  · have e : imbue (A ++ rTok k ++ B ++ rTok k ++ C) [(k, v)]
        = pyReplaceFirst (A ++ rTok k ++ B ++ rTok k ++ C) (rTok k) v := rfl
    rw [e]
    simp only [pyReplaceFirst, h1]
    simp only [List.append_assoc]
    rw [take_len_append, drop_len_append2]
  · have e : imbue T [(k, v)] = pyReplaceFirst T (rTok k) v := rfl
    rw [e]
    simp only [pyReplaceFirst, h2]

/-- Witness for imbue_first_occurrence at concrete inputs. -/
theorem imbue_first_occurrence_witness :
    imbue ("p ".toList ++ rTok "k".toList ++ " m ".toList ++ rTok "k".toList ++ " s".toList)
        [("k".toList, "V".toList)]
      = "p ".toList ++ "V".toList ++ " m ".toList ++ rTok "k".toList ++ " s".toList
    ∧ imbue "zz".toList [("k".toList, "V".toList)] = "zz".toList :=
  imbue_first_occurrence "k".toList "V".toList "p ".toList " m ".toList " s".toList
    "zz".toList (by decide) (by decide)

/-- Claim C5: the concatenation of the fragments printed during the
stream equals the accumulated result, which is exactly the content of
the assistant turn appended to the conversation when the stream
completes. -/
theorem stream_accumulation (chunks : List (Option (List Char))) (ms : List Turn)
    (q : List Char) :
    listJoin (streamLoop chunks).2 = (streamLoop chunks).1
    ∧ awaitModel ms q chunks =
        ms ++ [⟨Role.user, q⟩, ⟨Role.assistant, (streamLoop chunks).1⟩] := by
  constructor
  · exact streamLoop_inv chunks ([], []) rfl
  · simp [awaitModel]

/-- Claim C6: after every completed iteration of the generate loop, for
every sequence of loop-continuing user choices (each supplying the next
query and stream), the conversation starts with exactly one system turn
followed by strictly alternating user/assistant turns. -/
theorem conversation_shape_invariant (p : List Char)
    (iters : List (List Char × List (Option (List Char)))) :
    convShape (genLoopMessages p iters) = true := by
  unfold genLoopMessages convShape
  rw [genLoop_roles iters [⟨Role.system, p⟩]]
  exact altUA_uaPairs iters.length

/-- Claim C7: when a required credential variable is unset, startup exits
with status 1 and a diagnostic listing the missing keys, every unset
required variable appears in that diagnostic, and execution never
reaches the point where the generation capability would be called. -/
theorem credential_gate (env : List Char → Option (List Char)) (n : Nat) (k : List Char)
    (hk : k ∈ NEEDED_KEYS) (hnone : env k = none) :
    startupGate env n = StartupResult.exited 1 (missing_keys env)
    ∧ (∀ k2, k2 ∈ NEEDED_KEYS → env k2 = none → k2 ∈ missing_keys env)
    ∧ ∀ m, startupGate env n ≠ StartupResult.proceeded m := by
  have hmemAll : ∀ k2, k2 ∈ NEEDED_KEYS → env k2 = none → k2 ∈ missing_keys env := by
    intro k2 hk2 hn2
    unfold missing_keys
    exact List.mem_filter.mpr ⟨hk2, by simp [envFalsy, hn2]⟩
  have hne : missing_keys env ≠ [] := List.ne_nil_of_mem (hmemAll k hk hnone)
  refine ⟨?_, hmemAll, ?_⟩
  · unfold startupGate
    rw [if_neg hne]
  · intro m
    unfold startupGate
    rw [if_neg hne]
    intro hco
    exact StartupResult.noConfusion hco

/-- Witness for credential_gate with every variable unset. -/
theorem credential_gate_witness :
    startupGate (fun _ => none) 0
      = StartupResult.exited 1 (missing_keys (fun _ => none)) :=
  (credential_gate (fun _ => none) 0 "OPENAI_API_KEY".toList (by decide) rfl).1

/-- Claim C8 counterexample: for the assistant response
a<command>ls</command>b, the edit action writes alsb to the temporary
file (the code strips all command markers at line 269 before the choice
prompt), not the full response; and for read-back content with
surrounding whitespace the next query is the stripped text, not the
file content itself. -/
theorem edit_written_counterexample :
    (editAction "a<command>ls</command>b".toList true (some "  q ".toList)).written
        ≠ "a<command>ls</command>b".toList
    ∧ (editAction "a<command>ls</command>b".toList true (some "  q ".toList)).written
        = "alsb".toList
    ∧ (editAction "a<command>ls</command>b".toList true (some "  q ".toList)).outcome
        = Except.ok "q".toList
    ∧ "q".toList ≠ "  q ".toList :=
  ⟨by decide, by decide, rfl, by decide⟩

/-- Claim C8 as amended: when the user selects edit, the assistant
response with every occurrence of the command markers removed is written
to the freshly created temporary file before the editor runs, and on
successful editor exit the whitespace-stripped file content becomes the
next query. -/
theorem edit_written_content (assistantText c : List Char)
    (readResult : Option (List Char)) (e : Bool) :
    (editAction assistantText e readResult).written = cleanResult assistantText
    ∧ (editAction assistantText true (some c)).outcome = Except.ok (pyStrip c) :=
  ⟨rfl, rfl⟩

/-- Claim C9: explain mode with the stubbed stream ls, lists, files
prints exactly ls lists files followed by one newline, exits zero, and
sends only the system turn and the user turn, appending nothing. -/
theorem explain_single_shot (systemPrompt : List Char) :
    explainRun systemPrompt "ls -la".toList
        (Except.ok [some "ls".toList, some " lists".toList, some " files".toList]) =
      ⟨0, "ls lists files".toList ++ ['\n'],
        [⟨Role.system, systemPrompt⟩, ⟨Role.user, "ls -la".toList⟩]⟩ := rfl

/-- Claim C10: with the env flag off, the composed generate-mode system
prompt does not depend on the live OS, shell, user or home facts (two
runs differing only in those facts compose the same prompt), because the
snapshot maps every live key to Unknown and only the color_support entry
reflects the real terminal. -/
theorem env_noninterference (template : List Char) (f1 f2 : EnvFacts) (cs : Bool) :
    genSystemPrompt template false f1 cs = genSystemPrompt template false f2 cs
    ∧ systemInfo false f1 cs =
      [("os".toList, "Unknown".toList), ("os_version".toList, "Unknown".toList),
       ("shell".toList, "Unknown".toList), ("python_version".toList, "Unknown".toList),
       ("user".toList, "Unknown".toList), ("home".toList, "Unknown".toList),
       ("color_support".toList, pyStr cs)] :=
  ⟨rfl, rfl⟩
